import Mathlib

/-!
Verification development for the EigoKit backend authorization and
icon-credential subsystem.  The definitions below are shallow embeddings of
the Python source: the role store is a list of rows, timestamps are integers
(expiry comparison in the source is a strict greater-than on parsed
datetimes), and randomness is an explicit draw oracle consumed in call order.
-/

namespace EigoKit

/-- Roles of the multi-role system (app/models.py, class UserRole). -/
inductive UserRole
  | student
  | teacher
  | schoolAdmin
  | platformAdmin
deriving DecidableEq, Repr

/-- String value of a role, mirroring the enum values in app/models.py. -/
def UserRole.value : UserRole → String
  | .student => "student"
  | .teacher => "teacher"
  | .schoolAdmin => "school_admin"
  | .platformAdmin => "platform_admin"

/-- One row of the user_roles table: user_id, role, optional school scope,
active flag, optional expiry instant (parsed timestamp as an integer). -/
structure RoleRow where
  user_id : String
  role : String
  school_id : Option String
  is_active : Bool
  expires_at : Option Int
deriving DecidableEq, Repr

/-- Expiry acceptance used throughout the source: a null expires_at is
accepted, otherwise the parsed instant must be strictly later than now
(the source tests exp_dt > now). -/
def expiryOk (expires_at : Option Int) (now : Int) : Bool :=
  match expires_at with
  | none => true
  | some t => decide (now < t)

/-- The per-branch loop of require_role (app/auth.py): scan the query result
and succeed on the first row whose expiry is acceptable. -/
def anyActive (rows : List RoleRow) (now : Int) : Bool :=
  rows.any (fun r => expiryOk r.expires_at now)

/-- Query of the platform-admin pre-check in require_role (app/auth.py line 45):
rows of this user with role platform_admin, null school_id, is_active true. -/
def paPreQuery (db : List RoleRow) (uid : String) : List RoleRow :=
  db.filter (fun r =>
    r.user_id == uid && r.role == "platform_admin" && r.school_id == none && r.is_active)

/-- Python truthiness of the optional school_id argument: None and the empty
string are both falsy in the test at app/auth.py line 83. -/
def truthyId : Option String → Option String
  | none => none
  | some s => if s == "" then none else some s

/-- Query of the school-scoped branch of require_role (app/auth.py lines
83-90): with a (truthy) school_id the grant's school_id must equal it or be
null; without one any scope is accepted. -/
def schoolScopedQuery (db : List RoleRow) (uid : String) (roleValues : List String)
    (schoolId : Option String) : List RoleRow :=
  match truthyId schoolId with
  | some sid => db.filter (fun r =>
      r.user_id == uid && roleValues.contains r.role && r.is_active &&
        (r.school_id == some sid || r.school_id == none))
  | none => db.filter (fun r =>
      r.user_id == uid && roleValues.contains r.role && r.is_active)

/-- Query of the platform-level branch of require_role (app/auth.py line 117):
only rows with null school_id. -/
def platformLevelQuery (db : List RoleRow) (uid : String) (roleValues : List String) :
    List RoleRow :=
  db.filter (fun r =>
    r.user_id == uid && roleValues.contains r.role && r.is_active && r.school_id == none)

/-- Outcome of a role check: success returns the caller identity (opaque
here); httpError is a raised HTTPException with status and detail; nameError
is the unbound-local failure at app/auth.py line 143, where roles_result is
read although neither branch that assigns it has run. -/
inductive RoleCheckResult
  | success
  | httpError (status : Nat) (detail : String)
  | nameError
deriving DecidableEq, Repr

/-- Partition of the allowed roles into school-scoped ones
(app/auth.py line 77). -/
def allowedSchoolScoped (allowed : List UserRole) : List UserRole :=
  allowed.filter (fun r => r == UserRole.schoolAdmin || r == UserRole.teacher)

/-- Partition of the allowed roles into platform-level ones
(app/auth.py line 78). -/
def allowedPlatformLevel (allowed : List UserRole) : List UserRole :=
  allowed.filter (fun r => r == UserRole.platformAdmin)

/-- Result rows of the school-scoped branch query of require_role. -/
def ssRows (db : List RoleRow) (uid : String) (allowed : List UserRole)
    (schoolId : Option String) : List RoleRow :=
  schoolScopedQuery db uid ((allowedSchoolScoped allowed).map UserRole.value) schoolId

/-- Result rows of the platform-level branch query of require_role. -/
def plRows (db : List RoleRow) (uid : String) (allowed : List UserRole) : List RoleRow :=
  platformLevelQuery db uid ((allowedPlatformLevel allowed).map UserRole.value)

/-- Shallow embedding of the role_checker closure built by require_role
(app/auth.py lines 36-169), faithful to its control flow: platform-admin
pre-check gated on membership of platform_admin in allowed_roles, then the
school-scoped branch, then the platform-level branch, then the duplicated
final check that reads the last assigned roles_result (unbound if neither
branch ran), and finally the 403 with fixed detail. -/
def requireRole (db : List RoleRow) (uid : String) (now : Int)
    (allowed : List UserRole) (schoolId : Option String) : RoleCheckResult :=
  if allowed.contains .platformAdmin && anyActive (paPreQuery db uid) now then
    .success
  else if !(allowedSchoolScoped allowed).isEmpty &&
      anyActive (ssRows db uid allowed schoolId) now then
    .success
  else if !(allowedPlatformLevel allowed).isEmpty &&
      anyActive (plRows db uid allowed) now then
    .success
  else if !(allowedPlatformLevel allowed).isEmpty then
    if anyActive (plRows db uid allowed) now then .success
    else .httpError 403 "Insufficient permissions"
  else if !(allowedSchoolScoped allowed).isEmpty then
    if anyActive (ssRows db uid allowed schoolId) now then .success
    else .httpError 403 "Insufficient permissions"
  else
    .nameError

/-- An active, unscoped, never-expiring platform_admin grant. -/
def paGrant (uid : String) : RoleRow :=
  { user_id := uid, role := "platform_admin", school_id := none,
    is_active := true, expires_at := none }

/-- An active, never-expiring school_admin grant with null (wildcard) scope. -/
def wildcardSchoolAdminGrant (uid : String) : RoleRow :=
  { user_id := uid, role := "school_admin", school_id := none,
    is_active := true, expires_at := none }

/-- A school_admin grant for a concrete school with given active flag and
expiry. -/
def schoolAdminGrant (uid sid : String) (act : Bool) (e : Option Int) : RoleRow :=
  { user_id := uid, role := "school_admin", school_id := some sid,
    is_active := act, expires_at := e }

/-- One row of the classes table (only the columns the embedded code reads). -/
structure ClassRow where
  id : String
  school_id : String
deriving DecidableEq, Repr

/-- One row of the students table.  icon_sequence is the stored credential:
none models both a null column and a stored value that fails the source's
int-conversion (both are skipped by the scan in signin_student and by the
length-5 filter in get_used_sequences_for_school). -/
structure StudentRow where
  id : String
  class_id : String
  icon_sequence : Option (List Int)
  name : String
deriving DecidableEq, Repr

/-- Outcome of the student sign-in endpoint: ok carries the response fields;
httpError is a raised HTTPException with status code and detail message. -/
inductive SigninResult
  | ok (student_id : String) (class_id : String) (student_name : String)
  | httpError (status : Nat) (detail : String)
deriving DecidableEq, Repr

/-- Ids of the classes of a school (app/routers/auth.py lines 143-144). -/
def schoolClassIds (classes : List ClassRow) (schoolId : String) : List String :=
  (classes.filter (fun c => c.school_id == schoolId)).map (fun c => c.id)

/-- Students whose class_id is among the given class ids
(app/routers/auth.py line 150). -/
def studentsInClasses (students : List StudentRow) (classIds : List String) :
    List StudentRow :=
  students.filter (fun s => classIds.contains s.class_id)

/-- The matching loop of signin_student (app/routers/auth.py lines 160-189):
first student whose stored sequence converts and equals the input
element-by-element; unconvertible or null stored sequences are skipped. -/
def findMatchingStudent (students : List StudentRow) (inputSeq : List Int) :
    Option StudentRow :=
  students.find? (fun s =>
    match s.icon_sequence with
    | none => false
    | some l => l == inputSeq)

/-- Shallow embedding of signin_student (app/routers/auth.py lines 131-191).
The submitted sequence arrives already coerced to integers (pydantic model
StudentSignIn has icon_sequence as a list of int). -/
def signinStudent (classes : List ClassRow) (students : List StudentRow)
    (schoolId : String) (iconSequence : List Int) : SigninResult :=
  if iconSequence.length ≠ 5 then
    .httpError 400 "Icon sequence must contain exactly 5 icons"
  else
    let classIds := schoolClassIds classes schoolId
    if classIds.isEmpty then
      .httpError 401 "No classes found for this school"
    else
      let schoolStudents := studentsInClasses students classIds
      if schoolStudents.isEmpty then
        .httpError 401 "No students found"
      else
        match findMatchingStudent schoolStudents iconSequence with
        | some st => .ok st.id st.class_id st.name
        | none => .httpError 401 "Invalid icon sequence"

/-- A valid outcome of random.sample(palette, 5): five distinct elements of
the palette, in some order. -/
def sampleValid (palette : List Nat) (l : List Nat) : Prop :=
  l.length = 5 ∧ l.Nodup ∧ ∀ x ∈ l, x ∈ palette

/-- The retry loop of generate_unique_icon_sequence
(app/services/icon_password.py lines 117-128): draws i is the i-th call to
random.sample in program order; remaining counts loop iterations left.  When
the loop is exhausted the function performs one further fresh draw (line 128)
and returns it regardless of collision. -/
def genAttempts (used : List (List Nat)) (draws : Nat → List Nat) :
    Nat → Nat → List Nat
  | i, 0 => draws i
  | i, Nat.succ n =>
    if used.contains (draws i) then genAttempts used draws (i + 1) n else draws i

/-- Shallow embedding of generate_unique_icon_sequence
(app/services/icon_password.py lines 97-128): none when the palette has fewer
than 5 icons, otherwise the first non-colliding draw among the first
max_attempts draws, falling back to one further fresh draw. -/
def generate_unique_icon_sequence (school_password_icons : List Nat)
    (used_sequences : List (List Nat)) (max_attempts : Nat)
    (draws : Nat → List Nat) : Option (List Nat) :=
  if school_password_icons.length < 5 then none
  else some (genAttempts used_sequences draws 0 max_attempts)

/-- Admission of one student row into the used-sequence set
(app/services/icon_password.py lines 166-170): only a stored list of exactly
5 entries contributes. -/
def storedSequence (s : StudentRow) : Option (List Int) :=
  match s.icon_sequence with
  | some l => if l.length == 5 then some l else none
  | none => none

/-- Shallow embedding of get_used_sequences_for_school
(app/services/icon_password.py lines 131-175) over pure table contents: the
classes of the school are collected; with no classes the set is empty;
otherwise the students of those classes, minus the excluded student when a
truthy student_id is given, contribute their stored 5-element sequences. -/
def get_used_sequences_for_school (classes : List ClassRow)
    (students : List StudentRow) (school_id : String)
    (student_id : Option String) : List (List Int) :=
  let class_ids := schoolClassIds classes school_id
  if class_ids.isEmpty then []
  else
    let base : List StudentRow := studentsInClasses students class_ids
    let rows : List StudentRow :=
      match truthyId student_id with
      | some sid => base.filter (fun s => !(s.id == sid))
      | none => base
    rows.filterMap storedSequence

/-- The exclusion set computed on reset: reset_student_auth
(app/routers/teachers.py line 168) calls generate_student_icon_sequence with
student_id set to the resetting student, which forwards it to
get_used_sequences_for_school (app/services/icon_password.py line 227). -/
def resetExcludedSequences (classes : List ClassRow) (students : List StudentRow)
    (school_id : String) (student_id : String) : List (List Int) :=
  get_used_sequences_for_school classes students school_id (some student_id)

/-- A valid outcome of random.sample(range(1, 49), 9): nine distinct icon ids
in the catalog range 1..48. -/
def drawValid9 (draw : List Nat) : Prop :=
  draw.length = 9 ∧ draw.Nodup ∧ ∀ x ∈ draw, 1 ≤ x ∧ x ≤ 48

/-- Shallow embedding of generate_school_password_icons
(app/services/icon_password.py lines 87-94): the sampled ids, sorted. -/
def generate_school_password_icons (draw : List Nat) : List Nat :=
  List.insertionSort (fun a b => a ≤ b) draw

/-- Shallow embedding of the storage behaviour of get_school_password_icons
(app/routers/auth.py lines 60-103) for an existing school: input is the
school's stored password_icons column and the sample the generator would
draw; output is the list returned to the caller and the column value after
the call.  The source regenerates and persists when the stored value is falsy
or not of length 9, and otherwise returns the stored value untouched. -/
def fetch_school_password_icons (stored : Option (List Nat)) (draw : List Nat) :
    List Nat × Option (List Nat) :=
  match stored with
  | some l =>
      if l.length == 9 then (l, some l)
      else
        let icons := generate_school_password_icons draw
        (icons, some icons)
  | none =>
      let icons := generate_school_password_icons draw
      (icons, some icons)

/-- Query of the platform-admin read in check_school_access
(app/routers/schools.py line 16). -/
def paAccessQuery (db : List RoleRow) (uid : String) : List RoleRow :=
  db.filter (fun r =>
    r.user_id == uid && r.role == "platform_admin" && r.school_id == none && r.is_active)

/-- Query of the school-admin read in check_school_access
(app/routers/schools.py line 37): the grant's school_id must equal the given
school exactly. -/
def saAccessQuery (db : List RoleRow) (uid sid : String) : List RoleRow :=
  db.filter (fun r =>
    r.user_id == uid && r.role == "school_admin" && r.school_id == some sid && r.is_active)

/-- Semantics of maybe_single(): no row yields none, one row yields it, more
than one row raises. -/
def maybeSingle (rows : List RoleRow) : Except Unit (Option RoleRow) :=
  match rows with
  | [] => .ok none
  | [r] => .ok (some r)
  | _ => .error ()

/-- A store read that may fail: the fail flag injects an arbitrary runtime
exception (network failure etc.), otherwise maybe_single semantics apply. -/
def storeRead (fail : Bool) (rows : List RoleRow) : Except Unit (Option RoleRow) :=
  if fail then .error () else maybeSingle rows

/-- The per-row acceptance test applied to a maybe_single result in
check_school_access: a returned row qualifies when its expiry is acceptable;
no row does not qualify. -/
def rowOk (row : Option RoleRow) (now : Int) : Bool :=
  match row with
  | some r => expiryOk r.expires_at now
  | none => false

/-- The school-admin half of check_school_access (app/routers/schools.py
lines 37-55): a raising read yields False, otherwise the single returned row
must pass the expiry test. -/
def saCheck (db : List RoleRow) (user_id school_id : String) (now : Int)
    (fail2 : Bool) : Bool :=
  match storeRead fail2 (saAccessQuery db user_id school_id) with
  | .error _ => false
  | .ok sa => rowOk sa now

/-- Shallow embedding of check_school_access (app/routers/schools.py lines
12-62): the whole body is inside one try, so a raising read makes the
function fall through to return False; a qualifying platform-admin row
returns True before the second read ever executes; an expired row falls
through to the school-admin check. -/
def check_school_access (db : List RoleRow) (user_id school_id : String)
    (now : Int) (fail1 fail2 : Bool) : Bool :=
  match storeRead fail1 (paAccessQuery db user_id) with
  | .error _ => false
  | .ok pa =>
    if rowOk pa now then true
    else saCheck db user_id school_id now fail2

/-! Helper lemmas about the role filters of requireRole. -/

/-- The school-scoped role values never include platform_admin. -/
lemma schoolScoped_filter_no_pa (l : List UserRole) :
    ((allowedSchoolScoped l).map UserRole.value).contains "platform_admin" = false := by
  induction l with
  | nil => rfl
  | cons a t ih => cases a <;> exact ih

/-- When platform_admin is not among the allowed roles, the platform-level
partition is empty. -/
lemma platformLevel_filter_eq_nil (l : List UserRole)
    (h : l.contains UserRole.platformAdmin = false) :
    allowedPlatformLevel l = [] := by
  induction l with
  | nil => rfl
  | cons a t ih =>
    cases a
    case platformAdmin => exact Bool.noConfusion h
    all_goals exact ih h

/-- The platform-admin pre-check query returns the single unscoped
platform_admin grant. -/
lemma paPreQuery_paGrant (uid : String) : paPreQuery [paGrant uid] uid = [paGrant uid] := by
  simp [paPreQuery, paGrant]

/-- A single unscoped platform_admin grant never passes the school-scoped
query when platform_admin is not among the role values. -/
lemma schoolScopedQuery_paGrant (uid : String) (roleValues : List String)
    (schoolId : Option String) (h : roleValues.contains "platform_admin" = false) :
    schoolScopedQuery [paGrant uid] uid roleValues schoolId = [] := by
  have h2 : "platform_admin" ∉ roleValues := by simpa using h
  unfold schoolScopedQuery
  cases truthyId schoolId <;> simp [paGrant, h2]

/-- Every outcome of requireRole is success, the fixed 403, or the
unbound-local failure. -/
lemma requireRole_result_cases (db : List RoleRow) (uid : String) (now : Int)
    (allowed : List UserRole) (schoolId : Option String) :
    requireRole db uid now allowed schoolId = RoleCheckResult.success ∨
    requireRole db uid now allowed schoolId =
      RoleCheckResult.httpError 403 "Insufficient permissions" ∨
    requireRole db uid now allowed schoolId = RoleCheckResult.nameError := by
  unfold requireRole
  split_ifs <;> simp

/-- The unbound-local failure cannot arise when a role partition of the
allowed set is nonempty. -/
lemma requireRole_ne_nameError (db : List RoleRow) (uid : String) (now : Int)
    (allowed : List UserRole) (schoolId : Option String)
    (hne : allowedSchoolScoped allowed ≠ [] ∨ allowedPlatformLevel allowed ≠ []) :
    requireRole db uid now allowed schoolId ≠ RoleCheckResult.nameError := by
  unfold requireRole
  split_ifs with h1 h2 h3 h4 h5 <;> simp_all [List.isEmpty_iff]

/-- An allowed set containing a recognized role has a nonempty partition. -/
lemma recognized_filters (allowed : List UserRole)
    (h : allowed.any (fun r =>
      r == UserRole.teacher || r == UserRole.schoolAdmin || r == UserRole.platformAdmin) = true) :
    allowedSchoolScoped allowed ≠ [] ∨ allowedPlatformLevel allowed ≠ [] := by
  induction allowed with
  | nil => exact Bool.noConfusion h
  | cons a t ih =>
    cases a
    case student => exact ih h
    case teacher =>
      refine Or.inl ?_
      show UserRole.teacher :: allowedSchoolScoped t ≠ []
      exact List.cons_ne_nil _ _
    case schoolAdmin =>
      refine Or.inl ?_
      show UserRole.schoolAdmin :: allowedSchoolScoped t ≠ []
      exact List.cons_ne_nil _ _
    case platformAdmin =>
      refine Or.inr ?_
      show UserRole.platformAdmin :: allowedPlatformLevel t ≠ []
      exact List.cons_ne_nil _ _

/-- Evaluation of requireRole for a single school_admin-role grant matching
the requested scope: the check succeeds exactly when the grant is active and
unexpired, and otherwise raises the fixed 403. -/
lemma requireRole_single_schoolAdmin (g : RoleRow) (uid : String) (now : Int) (X : String)
    (huser : g.user_id = uid) (hrole : g.role = "school_admin")
    (hscope : g.school_id = some X ∨ g.school_id = none) :
    requireRole [g] uid now [UserRole.schoolAdmin] (some X) =
      if g.is_active && expiryOk g.expires_at now then RoleCheckResult.success
      else RoleCheckResult.httpError 403 "Insufficient permissions" := by
  have hrows : ssRows [g] uid [UserRole.schoolAdmin] (some X) =
      if g.is_active then [g] else [] := by
    unfold ssRows schoolScopedQuery truthyId
    rcases hscope with h2 | h2 <;> cases hact : g.is_active <;>
      by_cases hX : X = "" <;>
        simp [allowedSchoolScoped, UserRole.value, List.filter_cons, huser, hrole,
          h2, hact, hX]
  cases hact : g.is_active with
  | true =>
    cases hexp : expiryOk g.expires_at now <;>
      simp [requireRole, allowedSchoolScoped, allowedPlatformLevel, plRows,
        platformLevelQuery, hrows, hact, anyActive, hexp]
  | false =>
    simp [requireRole, allowedSchoolScoped, allowedPlatformLevel, plRows,
      platformLevelQuery, hrows, hact, anyActive]

/-! Claim theorems. -/

/-- Claim C1, counterexample: a user whose only grant is an active, unscoped
platform_admin grant does not pass require([school_admin], school_id = X);
the check raises the fixed 403 instead of succeeding, because the
platform-admin pre-check in require_role only runs when platform_admin is a
member of the allowed-roles list. -/
theorem c1_counterexample :
    requireRole [paGrant "u1"] "u1" 0 [UserRole.schoolAdmin] (some "X") =
      RoleCheckResult.httpError 403 "Insufficient permissions" := by
  decide

/-- Claim C1, amended: a user holding an active, unscoped platform_admin
grant passes a role check, for any school, exactly when platform_admin is a
member of the acceptable-role set; when it is not a member, that grant never
makes the check succeed. -/
theorem c1_platform_admin_scope (uid : String) (now : Int) (allowed : List UserRole)
    (schoolId : Option String) :
    (allowed.contains UserRole.platformAdmin = true →
      requireRole [paGrant uid] uid now allowed schoolId = RoleCheckResult.success) ∧
    (allowed.contains UserRole.platformAdmin = false →
      requireRole [paGrant uid] uid now allowed schoolId ≠ RoleCheckResult.success) := by
  constructor
  · intro h
    have h3 : UserRole.platformAdmin ∈ allowed := by simpa using h
    unfold requireRole
    rw [paPreQuery_paGrant]
    simp [anyActive, expiryOk, paGrant, h3]
  · intro h hcontra
    have hpl : allowedPlatformLevel allowed = [] := platformLevel_filter_eq_nil allowed h
    have hss : ssRows [paGrant uid] uid allowed schoolId = [] :=
      schoolScopedQuery_paGrant uid _ schoolId (schoolScoped_filter_no_pa allowed)
    unfold requireRole at hcontra
    rw [h, hpl, hss] at hcontra
    simp [anyActive] at hcontra
    split at hcontra <;> simp_all

/-- Claim C1, witness for the amended statement at concrete inputs. -/
theorem c1_platform_admin_scope_witness :
    requireRole [paGrant "u"] "u" 0 [UserRole.platformAdmin, UserRole.schoolAdmin]
      (some "X") = RoleCheckResult.success ∧
    requireRole [paGrant "u"] "u" 0 [UserRole.schoolAdmin] (some "X") ≠
      RoleCheckResult.success :=
  ⟨(c1_platform_admin_scope "u" 0 [UserRole.platformAdmin, UserRole.schoolAdmin]
      (some "X")).1 (by decide),
   (c1_platform_admin_scope "u" 0 [UserRole.schoolAdmin] (some "X")).2 (by decide)⟩

/-- Claim C3, counterexample: with the non-empty acceptable set consisting of
the role student, the check does not raise the fixed 403; it fails with the
unbound-local error at app/auth.py line 143, because neither branch that
assigns roles_result has run. -/
theorem c3_counterexample :
    requireRole [] "u" 0 [UserRole.student] none = RoleCheckResult.nameError ∧
    requireRole [] "u" 0 [UserRole.student] none ≠
      RoleCheckResult.httpError 403 "Insufficient permissions" := by
  decide

/-- Claim C3, amended: for every acceptable set containing at least one of
teacher, school_admin or platform_admin, the check either succeeds or fails
with exactly the fixed 403 "Insufficient permissions"; an acceptable set
whose members are all student instead hits an unbound-local error. -/
theorem c3_failure_is_fixed_403 (db : List RoleRow) (uid : String) (now : Int)
    (allowed : List UserRole) (schoolId : Option String)
    (h : allowed.any (fun r =>
      r == UserRole.teacher || r == UserRole.schoolAdmin ||
        r == UserRole.platformAdmin) = true) :
    requireRole db uid now allowed schoolId = RoleCheckResult.success ∨
    requireRole db uid now allowed schoolId =
      RoleCheckResult.httpError 403 "Insufficient permissions" := by
  rcases requireRole_result_cases db uid now allowed schoolId with hs | hf | hn
  · exact Or.inl hs
  · exact Or.inr hf
  · exact absurd hn
      (requireRole_ne_nameError db uid now allowed schoolId (recognized_filters allowed h))

/-- Claim C3, witness for the amended statement at concrete inputs. -/
theorem c3_failure_is_fixed_403_witness :
    requireRole [] "u" 0 [UserRole.teacher] none = RoleCheckResult.success ∨
    requireRole [] "u" 0 [UserRole.teacher] none =
      RoleCheckResult.httpError 403 "Insufficient permissions" :=
  c3_failure_is_fixed_403 [] "u" 0 [UserRole.teacher] none (by decide)

/-- Claim C4: a school_admin grant for the checked school makes the check
succeed exactly when is_active is true and expires_at is null or strictly
later than now; in particular a grant expiring exactly now is treated as
expired and a null expiry is active at every instant. -/
theorem c4_active_grant_iff (act : Bool) (e : Option Int) (now : Int) :
    requireRole [schoolAdminGrant "u" "X" act e] "u" now [UserRole.schoolAdmin]
      (some "X") = RoleCheckResult.success ↔
    act = true ∧ (e = none ∨ ∃ t, e = some t ∧ now < t) := by
  rw [requireRole_single_schoolAdmin (schoolAdminGrant "u" "X" act e) "u" now "X"
    rfl rfl (Or.inl rfl)]
  cases act with
  | false => simp [schoolAdminGrant]
  | true =>
    cases e with
    | none => simp [schoolAdminGrant, expiryOk]
    | some t => by_cases hlt : now < t <;> simp [schoolAdminGrant, expiryOk, hlt]

/-- Claim C5: a single active school_admin grant with null school_id passes
require([school_admin], school_id = X) for every concrete school id X. -/
theorem c5_wildcard_scope (uid X : String) (now : Int) :
    requireRole [wildcardSchoolAdminGrant uid] uid now [UserRole.schoolAdmin]
      (some X) = RoleCheckResult.success := by
  rw [requireRole_single_schoolAdmin (wildcardSchoolAdminGrant uid) uid now X
    rfl rfl (Or.inr rfl)]
  simp [wildcardSchoolAdminGrant, expiryOk]

/-- Claim C2, counterexample: the three failure cases of student sign-in
carry three pairwise-distinct detail messages, so they do not share one and
the same generic message. -/
theorem c2_counterexample :
    signinStudent [] [] "S" [1, 2, 3, 4, 5] =
      SigninResult.httpError 401 "No classes found for this school" ∧
    signinStudent [⟨"c1", "S"⟩] [] "S" [1, 2, 3, 4, 5] =
      SigninResult.httpError 401 "No students found" ∧
    signinStudent [⟨"c1", "S"⟩] [⟨"s1", "c1", some [1, 2, 3, 4, 6], "n"⟩] "S"
      [1, 2, 3, 4, 5] = SigninResult.httpError 401 "Invalid icon sequence" ∧
    ("No classes found for this school" ≠ "No students found" ∧
      "No classes found for this school" ≠ "Invalid icon sequence" ∧
      "No students found" ≠ "Invalid icon sequence") := by
  decide

/-- Claim C2, amended: for a submitted 5-entry sequence, all three failure
cases of student sign-in fail with status 401, but each carries its own
distinct detail message, which reveals which case occurred. -/
theorem c2_failure_cases (classes : List ClassRow) (students : List StudentRow)
    (schoolId : String) (seq : List Int) (hlen : seq.length = 5) :
    ((schoolClassIds classes schoolId).isEmpty = true →
      signinStudent classes students schoolId seq =
        SigninResult.httpError 401 "No classes found for this school") ∧
    ((schoolClassIds classes schoolId).isEmpty = false →
      (studentsInClasses students (schoolClassIds classes schoolId)).isEmpty = true →
      signinStudent classes students schoolId seq =
        SigninResult.httpError 401 "No students found") ∧
    ((schoolClassIds classes schoolId).isEmpty = false →
      (studentsInClasses students (schoolClassIds classes schoolId)).isEmpty = false →
      findMatchingStudent (studentsInClasses students (schoolClassIds classes schoolId))
        seq = none →
      signinStudent classes students schoolId seq =
        SigninResult.httpError 401 "Invalid icon sequence") := by
  refine ⟨fun h1 => ?_, fun h1 h2 => ?_, fun h1 h2 h3 => ?_⟩ <;>
    simp [signinStudent, hlen, h1, *]

/-- Claim C2, witness for the amended statement at concrete inputs. -/
theorem c2_failure_cases_witness :
    signinStudent [] [] "S" [1, 2, 3, 4, 5] =
      SigninResult.httpError 401 "No classes found for this school" :=
  (c2_failure_cases [] [] "S" [1, 2, 3, 4, 5] rfl).1 rfl

/-- Palette fixture: nine icon ids. -/
def c6Palette : List Nat := [1, 2, 3, 4, 5, 6, 7, 8, 9]

/-- Used-sequence fixture containing one sequence. -/
def c6Used : List (List Nat) := [[1, 2, 3, 4, 5]]

/-- Draw oracle fixture: the first two draws collide with c6Used, the third
differs. -/
def c6Draws : Nat → List Nat := fun n => if n < 2 then [1, 2, 3, 4, 5] else [5, 4, 3, 2, 1]

/-- Claim C6, counterexample: with max_attempts = 2 and both in-loop draws
colliding, generation returns the further fresh third draw, not the last of
the two colliding draws. -/
theorem c6_counterexample :
    c6Used.contains (c6Draws 0) = true ∧
    c6Used.contains (c6Draws 1) = true ∧
    generate_unique_icon_sequence c6Palette c6Used 2 c6Draws = some [5, 4, 3, 2, 1] ∧
    c6Draws 1 = [1, 2, 3, 4, 5] ∧
    ([5, 4, 3, 2, 1] : List Nat) ≠ [1, 2, 3, 4, 5] := by
  decide

/-- When every draw consumed by the loop collides, the loop falls through and
the fallback consumes the next draw. -/
lemma genAttempts_all_collide (used : List (List Nat)) (draws : Nat → List Nat) :
    ∀ (n i : Nat), (∀ j, j < n → used.contains (draws (i + j)) = true) →
      genAttempts used draws i n = draws (i + n)
  | 0, i, _ => by simp [genAttempts]
  | Nat.succ m, i, hall => by
    have h0 : used.contains (draws i) = true := by
      simpa using hall 0 (Nat.succ_pos m)
    have hrest : ∀ j, j < m → used.contains (draws (i + 1 + j)) = true := by
      intro j hj
      have h2 := hall (j + 1) (by omega)
      have h3 : i + 1 + j = i + (j + 1) := by omega
      rw [h3]
      exact h2
    have hrec := genAttempts_all_collide used draws m (i + 1) hrest
    have h4 : i + 1 + m = i + (m + 1) := by omega
    simp only [genAttempts, h0, if_true]
    rw [hrec, h4]

/-- Claim C6, amended: when each of the first max_attempts draws collides
with the excluded set, generation does not fail; it performs one additional
fresh draw (the draw with index max_attempts) and returns it regardless of
whether it collides. -/
theorem c6_exhaustion_returns_fresh_draw (palette : List Nat)
    (used : List (List Nat)) (ma : Nat) (draws : Nat → List Nat)
    (h5 : 5 ≤ palette.length)
    (hall : ∀ i, i < ma → used.contains (draws i) = true) :
    generate_unique_icon_sequence palette used ma draws = some (draws ma) := by
  unfold generate_unique_icon_sequence
  rw [if_neg (by omega)]
  rw [genAttempts_all_collide used draws ma 0 (fun j hj => by simpa using hall j hj)]
  simp

/-- Claim C6, witness for the amended statement at concrete inputs. -/
theorem c6_exhaustion_returns_fresh_draw_witness :
    generate_unique_icon_sequence c6Palette c6Used 2 c6Draws = some (c6Draws 2) :=
  c6_exhaustion_returns_fresh_draw c6Palette c6Used 2 c6Draws (by decide)
    (by
      intro i hi
      rcases i with _ | _ | k
      · decide
      · decide
      · omega)

/-- Every value the retry loop returns is one of the oracle's draws. -/
lemma genAttempts_is_draw (used : List (List Nat)) (draws : Nat → List Nat) :
    ∀ (n i : Nat), ∃ k, genAttempts used draws i n = draws k
  | 0, i => ⟨i, rfl⟩
  | Nat.succ m, i => by
    cases h : used.contains (draws i) with
    | true =>
      obtain ⟨k, hk⟩ := genAttempts_is_draw used draws m (i + 1)
      refine ⟨k, ?_⟩
      show (if used.contains (draws i) = true then genAttempts used draws (i + 1) m
        else draws i) = draws k
      rw [if_pos h, hk]
    | false =>
      refine ⟨i, ?_⟩
      show (if used.contains (draws i) = true then genAttempts used draws (i + 1) m
        else draws i) = draws i
      rw [h]
      simp

/-- Claim C7: with a palette of at least 5 icons and a sampling oracle
honouring random.sample's contract, generation always returns a sequence of
exactly 5 pairwise-distinct palette members (also on the exhaustion fallback
path); with fewer than 5 palette icons it returns the failure value. -/
theorem c7_sequence_well_formed (palette : List Nat) (used : List (List Nat))
    (ma : Nat) (draws : Nat → List Nat) :
    (5 ≤ palette.length → (∀ i, sampleValid palette (draws i)) →
      ∃ s, generate_unique_icon_sequence palette used ma draws = some s ∧
        s.length = 5 ∧ s.Nodup ∧ ∀ x ∈ s, x ∈ palette) ∧
    (palette.length < 5 →
      generate_unique_icon_sequence palette used ma draws = none) := by
  constructor
  · intro h5 hvalid
    obtain ⟨k, hk⟩ := genAttempts_is_draw used draws ma 0
    refine ⟨draws k, ?_, (hvalid k).1, (hvalid k).2.1, (hvalid k).2.2⟩
    unfold generate_unique_icon_sequence
    rw [if_neg (by omega), hk]
  · intro h
    unfold generate_unique_icon_sequence
    rw [if_pos h]

/-- Claim C7, witness at concrete inputs: a 9-icon palette with a constant
valid oracle yields a well-formed sequence; a 3-icon palette fails. -/
theorem c7_sequence_well_formed_witness :
    (∃ s, generate_unique_icon_sequence [1, 2, 3, 4, 5, 6, 7, 8, 9] [] 1000
        (fun _ => [1, 2, 3, 4, 5]) = some s ∧
      s.length = 5 ∧ s.Nodup ∧ ∀ x ∈ s, x ∈ [1, 2, 3, 4, 5, 6, 7, 8, 9]) ∧
    generate_unique_icon_sequence [1, 2, 3] [] 1000 (fun _ => [1, 2, 3, 4, 5]) = none :=
  ⟨(c7_sequence_well_formed [1, 2, 3, 4, 5, 6, 7, 8, 9] [] 1000
      (fun _ => [1, 2, 3, 4, 5])).1 (by decide)
      (fun _ => ⟨by decide, by decide, by decide⟩),
   (c7_sequence_well_formed [1, 2, 3] [] 1000 (fun _ => [1, 2, 3, 4, 5])).2 (by decide)⟩

/-- Characterization of the per-student admission test. -/
lemma storedSequence_eq_some (s : StudentRow) (q : List Int) :
    storedSequence s = some q ↔ s.icon_sequence = some q ∧ q.length = 5 := by
  unfold storedSequence
  cases h : s.icon_sequence with
  | none => simp
  | some l =>
    show (if (l.length == 5) = true then some l else none) = some q ↔
      some l = some q ∧ q.length = 5
    by_cases h5 : l.length = 5
    · rw [if_pos (by simpa using h5)]
      simp only [Option.some.injEq]
      exact ⟨fun hx => ⟨hx, hx ▸ h5⟩, fun hx => hx.1⟩
    · rw [if_neg (by simpa using h5)]
      constructor
      · intro hx
        exact absurd hx (by simp)
      · rintro ⟨hq, hlen⟩
        obtain rfl : l = q := by injection hq
        exact absurd hlen h5

/-- Claim C8: on reset, the exclusion set is drawn from the other students of
the school only — a sequence is excluded exactly when some student other than
the resetting one stores it — and hence the resetting student's own previous
sequence never blocks the reset when no other student shares it. -/
theorem c8_self_exclusion (classes : List ClassRow) (students : List StudentRow)
    (school_id sid : String) (q : List Int) (hsid : sid ≠ "") :
    (q ∈ resetExcludedSequences classes students school_id sid ↔
      ∃ s, s ∈ students ∧ s.id ≠ sid ∧
        s.class_id ∈ schoolClassIds classes school_id ∧
        s.icon_sequence = some q ∧ q.length = 5) ∧
    ((∀ s, s ∈ students → s.icon_sequence = some q → s.id = sid) →
      q ∉ resetExcludedSequences classes students school_id sid) := by
  have htr : truthyId (some sid) = some sid := by simp [truthyId, hsid]
  have hiff : q ∈ resetExcludedSequences classes students school_id sid ↔
      ∃ s, s ∈ students ∧ s.id ≠ sid ∧
        s.class_id ∈ schoolClassIds classes school_id ∧
        s.icon_sequence = some q ∧ q.length = 5 := by
    unfold resetExcludedSequences get_used_sequences_for_school
    rw [htr]
    by_cases hemp : (schoolClassIds classes school_id).isEmpty
    · have hnil : schoolClassIds classes school_id = [] := by
        simpa [List.isEmpty_iff] using hemp
      rw [if_pos hemp]
      simp [hnil]
    · rw [if_neg hemp]
      simp only [List.mem_filterMap, List.mem_filter, studentsInClasses,
        storedSequence_eq_some]
      constructor
      · rintro ⟨s, hs, hseq, hq5⟩
        refine ⟨s, hs.1.1, ?_, ?_, hseq, hq5⟩
        · simpa using hs.2
        · simpa using hs.1.2
      · rintro ⟨s, hs, hne, hcl, hseq, hq5⟩
        exact ⟨s, ⟨⟨hs, by simpa using hcl⟩, by simpa using hne⟩, hseq, hq5⟩
  refine ⟨hiff, fun hall hq => ?_⟩
  obtain ⟨s, hs, hne2, _, hseq, _⟩ := hiff.mp hq
  exact hne2 (hall s hs hseq)

/-- Claim C8, witness at concrete inputs: the resetting student's own stored
sequence is not in the exclusion set, while another student's is. -/
theorem c8_self_exclusion_witness :
    [1, 2, 3, 4, 5] ∉
      resetExcludedSequences [⟨"c1", "S"⟩]
        [⟨"kid1", "c1", some [1, 2, 3, 4, 5], "a"⟩,
         ⟨"kid2", "c1", some [2, 3, 4, 5, 6], "b"⟩] "S" "kid1" :=
  (c8_self_exclusion [⟨"c1", "S"⟩]
      [⟨"kid1", "c1", some [1, 2, 3, 4, 5], "a"⟩,
       ⟨"kid2", "c1", some [2, 3, 4, 5, 6], "b"⟩] "S" "kid1" [1, 2, 3, 4, 5]
      (by decide)).2 (by decide)

/-- Claim C9: when the stored palette is absent or not a 9-element list, one
fetch generates 9 distinct catalog ids, returns them and persists them, and
any later fetch returns exactly the same value without regenerating. -/
theorem c9_palette_idempotent (stored : Option (List Nat)) (draw : List Nat)
    (hmissing : ∀ l, stored = some l → l.length ≠ 9) (hdraw : drawValid9 draw) :
    (fetch_school_password_icons stored draw).1.length = 9 ∧
    (fetch_school_password_icons stored draw).1.Nodup ∧
    (∀ x ∈ (fetch_school_password_icons stored draw).1, 1 ≤ x ∧ x ≤ 48) ∧
    (fetch_school_password_icons stored draw).2 =
      some (fetch_school_password_icons stored draw).1 ∧
    ∀ draw2, fetch_school_password_icons (fetch_school_password_icons stored draw).2
      draw2 = fetch_school_password_icons stored draw := by
  obtain ⟨hlen, hnd, hrange⟩ := hdraw
  have hperm := List.perm_insertionSort (fun a b => a ≤ b) draw
  have hglen : (generate_school_password_icons draw).length = 9 := by
    rw [generate_school_password_icons, hperm.length_eq, hlen]
  have hgnd : (generate_school_password_icons draw).Nodup := by
    rw [generate_school_password_icons]
    exact hperm.nodup_iff.mpr hnd
  have hgmem : ∀ x ∈ generate_school_password_icons draw, 1 ≤ x ∧ x ≤ 48 := by
    intro x hx
    exact hrange x (hperm.mem_iff.mp (by simpa [generate_school_password_icons] using hx))
  have hfetch : fetch_school_password_icons stored draw =
      (generate_school_password_icons draw, some (generate_school_password_icons draw)) := by
    cases stored with
    | none => rfl
    | some l =>
      have h9 : l.length ≠ 9 := hmissing l rfl
      simp [fetch_school_password_icons, h9]
  rw [hfetch]
  refine ⟨hglen, hgnd, hgmem, rfl, ?_⟩
  intro d2
  simp [fetch_school_password_icons, hglen]

/-- Claim C9, witness at a concrete empty state and valid draw. -/
theorem c9_palette_idempotent_witness :
    (fetch_school_password_icons none [9, 8, 7, 6, 5, 4, 3, 2, 1]).1.length = 9 ∧
    (fetch_school_password_icons none [9, 8, 7, 6, 5, 4, 3, 2, 1]).2 =
      some (fetch_school_password_icons none [9, 8, 7, 6, 5, 4, 3, 2, 1]).1 ∧
    fetch_school_password_icons
      (fetch_school_password_icons none [9, 8, 7, 6, 5, 4, 3, 2, 1]).2
      [10, 11, 12, 13, 14, 15, 16, 17, 18] =
      fetch_school_password_icons none [9, 8, 7, 6, 5, 4, 3, 2, 1] :=
  ⟨(c9_palette_idempotent none [9, 8, 7, 6, 5, 4, 3, 2, 1]
      (fun l h => Option.noConfusion h) ⟨by decide, by decide, by decide⟩).1,
   (c9_palette_idempotent none [9, 8, 7, 6, 5, 4, 3, 2, 1]
      (fun l h => Option.noConfusion h) ⟨by decide, by decide, by decide⟩).2.2.2.1,
   (c9_palette_idempotent none [9, 8, 7, 6, 5, 4, 3, 2, 1]
      (fun l h => Option.noConfusion h)
      ⟨by decide, by decide, by decide⟩).2.2.2.2 [10, 11, 12, 13, 14, 15, 16, 17, 18]⟩

/-- A singleton filter result satisfies the filter predicate. -/
lemma filter_eq_singleton_pred {α : Type} (p : α → Bool) (l : List α) (r : α)
    (h : l.filter p = [r]) : p r = true := by
  have hmem : r ∈ l.filter p := by
    rw [h]
    exact List.mem_singleton_self r
  exact (List.mem_filter.mp hmem).2

/-- The single row returned by the platform-admin read carries the queried
role, scope and active flag. -/
lemma paRow_sound (db : List RoleRow) (uid : String) (r : RoleRow)
    (h : paAccessQuery db uid = [r]) :
    r.user_id = uid ∧ r.role = "platform_admin" ∧ r.school_id = none ∧
      r.is_active = true := by
  unfold paAccessQuery at h
  have hp := filter_eq_singleton_pred _ _ _ h
  simp only [Bool.and_eq_true, beq_iff_eq] at hp
  exact ⟨hp.1.1.1, hp.1.1.2, hp.1.2, hp.2⟩

/-- A true school-admin half can only come from a successful read of a single
qualifying row. -/
lemma saCheck_sound (db : List RoleRow) (uid sid : String) (now : Int) (f2 : Bool)
    (h : saCheck db uid sid now f2 = true) :
    ∃ r, saAccessQuery db uid sid = [r] ∧ r.user_id = uid ∧
      r.role = "school_admin" ∧ r.school_id = some sid ∧ r.is_active = true ∧
      expiryOk r.expires_at now = true := by
  cases f2 with
  | true => simp [saCheck, storeRead] at h
  | false =>
    unfold saCheck storeRead at h
    cases hsa : saAccessQuery db uid sid with
    | nil => rw [hsa] at h; simp [maybeSingle, rowOk] at h
    | cons a t =>
      cases t with
      | nil =>
        rw [hsa] at h
        simp [maybeSingle, rowOk] at h
        have hp : (a.user_id == uid && a.role == "school_admin" &&
            a.school_id == some sid && a.is_active) = true := by
          have h2 : List.filter (fun r : RoleRow => r.user_id == uid &&
              r.role == "school_admin" && r.school_id == some sid && r.is_active)
              db = [a] := hsa
          exact filter_eq_singleton_pred
            (fun r : RoleRow => r.user_id == uid && r.role == "school_admin" &&
              r.school_id == some sid && r.is_active) db a h2
        simp only [Bool.and_eq_true, beq_iff_eq] at hp
        exact ⟨a, rfl, hp.1.1.1, hp.1.1.2, hp.1.2, hp.2, h⟩
      | cons b t2 => rw [hsa] at h; simp [maybeSingle, rowOk] at h

/-- Claim C10: check_school_access is fail-closed.  A raising first read
yields false; when the first read succeeds without qualifying, a raising
second read also yields false (so a true result with a raising second read
means the second read never executed because the first already qualified);
and a true result always rests on an actually-read single row that is an
active, unexpired platform_admin grant with null scope or an active,
unexpired school_admin grant for exactly the given school. -/
theorem c10_fail_closed (db : List RoleRow) (uid sid : String) (now : Int)
    (f1 f2 : Bool) :
    (f1 = true → check_school_access db uid sid now f1 f2 = false) ∧
    (f1 = false → f2 = true → check_school_access db uid sid now f1 f2 = true →
      ∃ r, paAccessQuery db uid = [r] ∧ expiryOk r.expires_at now = true) ∧
    (check_school_access db uid sid now f1 f2 = true →
      ∃ r, (paAccessQuery db uid = [r] ∧ r.role = "platform_admin" ∧
            r.school_id = none ∨
            saAccessQuery db uid sid = [r] ∧ r.role = "school_admin" ∧
            r.school_id = some sid) ∧
        r.user_id = uid ∧ r.is_active = true ∧ expiryOk r.expires_at now = true) := by
  refine ⟨fun h1 => ?_, fun h1 h2 htrue => ?_, fun htrue => ?_⟩
  · subst h1
    simp [check_school_access, storeRead]
  · subst h1
    subst h2
    unfold check_school_access storeRead at htrue
    cases hpa : paAccessQuery db uid with
    | nil =>
      rw [hpa] at htrue
      simp [maybeSingle, rowOk, saCheck, storeRead] at htrue
    | cons a t =>
      cases t with
      | nil =>
        rw [hpa] at htrue
        cases hexp : expiryOk a.expires_at now with
        | true => exact ⟨a, rfl, hexp⟩
        | false =>
          simp [maybeSingle, rowOk, hexp, saCheck, storeRead] at htrue
      | cons b t2 =>
        rw [hpa] at htrue
        simp [maybeSingle, rowOk, saCheck, storeRead] at htrue
  · cases f1 with
    | true => simp [check_school_access, storeRead] at htrue
    | false =>
      unfold check_school_access storeRead at htrue
      cases hpa : paAccessQuery db uid with
      | nil =>
        rw [hpa] at htrue
        simp [maybeSingle, rowOk] at htrue
        obtain ⟨r, hr, hu, hrole, hscope, hact, hexp⟩ :=
          saCheck_sound db uid sid now f2 htrue
        exact ⟨r, Or.inr ⟨hr, hrole, hscope⟩, hu, hact, hexp⟩
      | cons a t =>
        cases t with
        | nil =>
          rw [hpa] at htrue
          cases hexp : expiryOk a.expires_at now with
          | true =>
            obtain ⟨hu, hrole, hscope, hact⟩ := paRow_sound db uid a hpa
            exact ⟨a, Or.inl ⟨rfl, hrole, hscope⟩, hu, hact, hexp⟩
          | false =>
            simp [maybeSingle, rowOk, hexp] at htrue
            obtain ⟨r, hr, hu, hrole, hscope, hact, hexp2⟩ :=
              saCheck_sound db uid sid now f2 htrue
            exact ⟨r, Or.inr ⟨hr, hrole, hscope⟩, hu, hact, hexp2⟩
        | cons b t2 =>
          rw [hpa] at htrue
          simp [maybeSingle, rowOk] at htrue

/-- Claim C10, witness: a raising first read denies access even for a
platform admin, and a granted access rests on a qualifying read row. -/
theorem c10_fail_closed_witness :
    check_school_access [paGrant "u"] "u" "S" 0 true false = false ∧
    ∃ r, (paAccessQuery [paGrant "u"] "u" = [r] ∧ r.role = "platform_admin" ∧
          r.school_id = none ∨
          saAccessQuery [paGrant "u"] "u" "S" = [r] ∧ r.role = "school_admin" ∧
          r.school_id = some "S") ∧
      r.user_id = "u" ∧ r.is_active = true ∧ expiryOk r.expires_at 0 = true :=
  ⟨(c10_fail_closed [paGrant "u"] "u" "S" 0 true false).1 rfl,
   (c10_fail_closed [paGrant "u"] "u" "S" 0 false false).2.2 (by decide)⟩

end EigoKit
